import Mathlib

/-!
Shallow embedding of `cmdutils` (Go): the shell selector `NewExecuter`, the
permission encoder `mergePerm`, the `Mkdir` permission-argument handling, and
an operational model of the goroutines spawned by `AsyncExecute` (two decode
paths, the cancel-after-waitgroup goroutine, and the wait-and-close goroutine),
together with the channel-operation semantics needed to settle the
concurrency claims.  Bytes are modelled as `Nat` (newline = 10); Go strings
formatted/parsed by `fmt.Sprintf("%v", ...)` / `strconv.ParseUint` are
modelled as lists of decimal digits.
-/

namespace Cmdutils

/-! ### Permission encoding (`mergePerm`, cmdutils.go lines 163-183) -/

/-- Little-endian decimal digits of `n`, with fuel (`fuel = n` suffices). -/
def goDigitsAux : Nat → Nat → List Nat
  | 0, _ => []
  | fuel + 1, n => if n = 0 then [] else n % 10 :: goDigitsAux fuel (n / 10)

/-- Decimal digit string (most significant first) produced by Go's
`fmt.Sprintf("%v", n)` for an unsigned integer `n`. -/
def goFormatUint (n : Nat) : List Nat :=
  if n = 0 then [0] else (goDigitsAux n n).reverse

/-- `2 ^ 32`, the bound enforced by `strconv.ParseUint(s, 10, 32)`. -/
def U32 : Nat := 4294967296

/-- `2 ^ 16`, the modulus of the `uint16(res)` conversion. -/
def U16 : Nat := 65536

/-- `strconv.ParseUint(s, 10, 32)` on a digit string: fails on an empty
string, a non-digit character, or a value not fitting in 32 bits. -/
def parseUintDigits (ds : List Nat) : Option Nat :=
  if ds = [] then none
  else if ds.all (fun d => decide (d < 10)) then
    let v := ds.foldl (fun acc d => acc * 10 + d) 0
    if v < U32 then some v else none
  else none

/-- `mergePerm(owner, group, other)` (cmdutils.go:176-183): format the three
components with `%v`, concatenate, `ParseUint(..., 10, 32)`, cast to `uint16`.
`none` models the error return. -/
def mergePerm (owner group other : Nat) : Option Nat :=
  match parseUintDigits (goFormatUint owner ++ goFormatUint group ++ goFormatUint other) with
  | none => none
  | some res => some (res % U16)

/-! ### Shell selector (`NewExecuter`, cmdutils.go lines 234-272) -/

/-- The `CLI` constants (`type CLI uint8`, iota). -/
def CLI_AUTO : Nat := 0

def CLI_POWERSHELL : Nat := 1

def CLI_CMD : Nat := 2

def CLI_BASH : Nat := 3

/-- The `executer` struct: resolved shell binding. -/
structure Executer where
  cliExecuter : String
  cliParams : String
deriving DecidableEq

/-- `NewExecuter` (cmdutils.go:234-272) as a pure function of the requested
kind and of `runtime.GOOS`.  Any kind other than the three named constants
(including `CLI_AUTO`) takes the `default` branch. -/
def NewExecuter (cli : Nat) (goos : String) : Executer :=
  if cli = CLI_POWERSHELL then { cliExecuter := "powershell.exe", cliParams := "/c" }
  else if cli = CLI_CMD then { cliExecuter := "cmd.exe", cliParams := "/c" }
  else if cli = CLI_BASH then { cliExecuter := "/bin/bash", cliParams := "-c" }
  else if goos = "windows" then { cliExecuter := "powershell.exe", cliParams := "/c" }
  else { cliExecuter := "/bin/bash", cliParams := "-c" }

/-! ### `Mkdir` permission arguments (cmdutils.go lines 308-323) -/

/-- `Perm_rwx = 7`. -/
def Perm_rwx : Nat := 7

/-- `Perm_rox = 5`. -/
def Perm_rox : Nat := 5

/-- The `for i, val := range perm { if i < len(p) { p[i] = val } }` loop over
the variadic permission arguments, updating the array `p`. -/
def mkdirLoop : List Nat → Nat → List Nat → List Nat
  | [], _, p => p
  | val :: rest, i, p => mkdirLoop rest (i + 1) (if i < 3 then p.set i val else p)

/-- The array `p` after `Mkdir`'s argument loop, starting from the default
`[3]PermissionMode{Perm_rwx, Perm_rox, Perm_rox}`. -/
def mkdirPermArr (perm : List Nat) : List Nat :=
  mkdirLoop perm 0 [Perm_rwx, Perm_rox, Perm_rox]

/-- The permission bits `Mkdir` passes to `os.Mkdir`: `mergePerm(p[0], p[1], p[2])`. -/
def MkdirPermBits (perm : List Nat) : Option Nat :=
  mergePerm ((mkdirPermArr perm).getD 0 0) ((mkdirPermArr perm).getD 1 0)
    ((mkdirPermArr perm).getD 2 0)

/-! ### `AsyncExecute` operational model (cmdutils.go lines 344-458) -/

/-- Abstract Go errors observed by the session. -/
inductive GoErr
  | eof
  | exitFailure
  | cancelFailure
  | pipeFailure
  | startFailure
deriving DecidableEq

/-- `outputMessage` (cmdutils.go:344-348).  Omitted fields take Go's zero
values, exactly as in the composite literals of the source. -/
structure OutputMessage where
  Line : List Nat := []
  Error : Option GoErr := none
  IsError : Bool := false
deriving DecidableEq

/-- An operation a goroutine performs on the shared `output` channel. -/
inductive ChanOp
  | send (m : OutputMessage)
  | close
deriving DecidableEq

/-- The sequence of channel operations a decode goroutine
(cmdutils.go:377-403 for stderr, 407-433 for stdout) performs, as a function
of the bytes its stream yields before end-of-stream: accumulate into `line`
until a newline byte, then send `{Line: line, IsError: isErr}`; when the
read errors (stream exhausted), send `{Error: err}` and break out of both
loops. -/
def decodeGo (isErr : Bool) : List Nat → List Nat → List ChanOp
  | [], _ => [ChanOp.send { Error := some GoErr.eof }]
  | b :: rest, line =>
    if b = 10 then ChanOp.send { Line := line, IsError := isErr } :: decodeGo isErr rest []
    else decodeGo isErr rest (line ++ [b])

/-- One decode path run on a whole stream (empty initial line buffer). -/
def decodePath (isErr : Bool) (stream : List Nat) : List ChanOp :=
  decodeGo isErr stream []

/-- The newline-terminated lines of a byte stream, given the already
accumulated partial line; a trailing partial line is not included. -/
def terminatedLinesGo : List Nat → List Nat → List (List Nat)
  | [], _ => []
  | b :: rest, line =>
    if b = 10 then line :: terminatedLinesGo rest []
    else terminatedLinesGo rest (line ++ [b])

/-- The newline-terminated lines of a byte stream. -/
def terminatedLines (stream : List Nat) : List (List Nat) :=
  terminatedLinesGo stream []

/-- Channel operations of the `cancel on error` goroutine
(cmdutils.go:436-445): after `wg.Wait()`, call `cmd.Cancel()`, send its error
if non-nil, then `close(output)`. -/
def cancelGoOps (cancelResult : Option GoErr) : List ChanOp :=
  (match cancelResult with
   | some e => [ChanOp.send { Error := some e }]
   | none => []) ++ [ChanOp.close]

/-- Channel operations of the `pipe for wait and close` goroutine
(cmdutils.go:448-455): after `cmd.Wait()`, send its error if non-nil, then
`close(output)`. -/
def waitGoOps (waitResult : Option GoErr) : List ChanOp :=
  (match waitResult with
   | some e => [ChanOp.send { Error := some e }]
   | none => []) ++ [ChanOp.close]

/-- An interleaving of two sequences of channel operations. -/
inductive Merge : List ChanOp → List ChanOp → List ChanOp → Prop
  | nil : Merge [] [] []
  | left {x : ChanOp} {xs ys zs : List ChanOp} :
      Merge xs ys zs → Merge (x :: xs) ys (x :: zs)
  | right {y : ChanOp} {xs ys zs : List ChanOp} :
      Merge xs ys zs → Merge xs (y :: ys) (y :: zs)

/-- A complete schedule of one `AsyncExecute` session with stderr bytes `se`,
stdout bytes `so`, `cmd.Cancel()` outcome `ce` and `cmd.Wait()` outcome `we`:
the two decode goroutines interleave freely into `d`; the cancel goroutine
runs only after `wg.Wait()`, i.e. after all of `d`; the wait goroutine
(`cmd.Wait` returns when the process exits) interleaves freely with the rest. -/
def ValidSchedule (se so : List Nat) (ce we : Option GoErr) (s : List ChanOp) : Prop :=
  ∃ d, Merge (decodePath true se) (decodePath false so) d ∧
    Merge (d ++ cancelGoOps ce) (waitGoOps we) s

/-- Whether a channel operation is a `close`. -/
def isClose : ChanOp → Bool
  | ChanOp.send _ => false
  | ChanOp.close => true

/-- Number of `close` operations in a schedule. -/
def closeCount (ops : List ChanOp) : Nat := ops.countP isClose

/-- Result of running a schedule against Go channel semantics. -/
inductive RunOutcome
  | ok
  | panicSendOnClosed
  | panicDoubleClose
deriving DecidableEq

/-- Execute a schedule against a channel whose closed-flag is `closed`:
a send on a closed channel and a close of a closed channel both panic
(Go runtime semantics); the first component is the prefix of operations
that actually took effect before any panic. -/
def runOps : List ChanOp → Bool → List ChanOp × RunOutcome
  | [], _ => ([], RunOutcome.ok)
  | ChanOp.send m :: rest, closed =>
    if closed then ([], RunOutcome.panicSendOnClosed)
    else
      let r := runOps rest false
      (ChanOp.send m :: r.1, r.2)
  | ChanOp.close :: rest, closed =>
    if closed then ([], RunOutcome.panicDoubleClose)
    else
      let r := runOps rest true
      (ChanOp.close :: r.1, r.2)

/-- Events of a delivered trace that are stdout line events: `Error` nil and
`IsError` false (stderr line events carry `IsError = true`; every error event
carries a non-nil `Error`). -/
def stdoutLineCount (t : List ChanOp) : Nat :=
  t.countP fun op =>
    match op with
    | ChanOp.send m => m.Error.isNone && !m.IsError
    | ChanOp.close => false

/-- The terminal end-of-stream event a decode path sends. -/
def eofSend : ChanOp := ChanOp.send { Error := some GoErr.eof }

/-- Complete schedule of the session with both streams empty and `Cancel`
and `Wait` both succeeding: each decode path sends its end-of-stream event,
then the cancel goroutine closes, then the wait goroutine closes. -/
def cOneSched : List ChanOp := [eofSend, eofSend, ChanOp.close, ChanOp.close]

/-- Decode-goroutine operations for stderr `[]`, stdout `[10]` (one empty line). -/
def cTwoDecodes : List ChanOp := decodePath true [] ++ decodePath false [10]

/-- A valid schedule in which the wait goroutine's `close` fires before any
decode-goroutine send. -/
def cTwoSched : List ChanOp := ChanOp.close :: (cTwoDecodes ++ cancelGoOps none)

/-- Decode-goroutine operations for stderr `[]`, stdout `"hi\n"`. -/
def cFiveDecodes : List ChanOp := decodePath true [] ++ decodePath false [104, 105, 10]

/-- A valid schedule for stdout `"hi\n"` in which the wait goroutine closes
the channel before the stdout decoder delivers its line. -/
def cFiveSched : List ChanOp := ChanOp.close :: (cFiveDecodes ++ cancelGoOps none)

/-! ### Launch phase of `AsyncExecute` (cmdutils.go lines 351-368) -/

/-- Outcomes of the three fallible launch steps, in source order:
`cmd.StdoutPipe()`, `cmd.StderrPipe()`, `cmd.Start()`. -/
structure LaunchEnv where
  stdoutPipeResult : Option GoErr := none
  stderrPipeResult : Option GoErr := none
  startResult : Option GoErr := none
deriving DecidableEq

/-- Observable result of the launch phase: the error returned (if any),
whether the `output` channel was created, and how many decode goroutines
were started. -/
structure AsyncLaunch where
  returnedErr : Option GoErr
  channelCreated : Bool
  decodeGoroutines : Nat
deriving DecidableEq

/-- The launch phase of `AsyncExecute` (cmdutils.go:351-371): each failing
step returns `(nil, err)` immediately; `make(chan outputMessage, 2)` and the
`go func` statements only execute when all three steps succeed. -/
def AsyncExecuteLaunch (env : LaunchEnv) : AsyncLaunch :=
  match env.stdoutPipeResult with
  | some e => { returnedErr := some e, channelCreated := false, decodeGoroutines := 0 }
  | none =>
    match env.stderrPipeResult with
    | some e => { returnedErr := some e, channelCreated := false, decodeGoroutines := 0 }
    | none =>
      match env.startResult with
      | some e => { returnedErr := some e, channelCreated := false, decodeGoroutines := 0 }
      | none => { returnedErr := none, channelCreated := true, decodeGoroutines := 2 }

/-! ### Shared read buffer between the two decode goroutines
(cmdutils.go:370: `buffer := make([]byte, 1)` is declared once, before both
`go func` literals, and captured by both closures). -/

/-- Program counter of one decode goroutine at byte granularity: about to
call `Read(buffer)`, or about to test/consume the byte now in `buffer`. -/
inductive PathPC
  | doRead
  | doCheck
deriving DecidableEq

/-- Local state of one decode goroutine: its remaining stream bytes, program
counter, accumulated `line`, and whether it has broken out of its loops. -/
structure PathState where
  stream : List Nat
  pc : PathPC
  line : List Nat
  finished : Bool
deriving DecidableEq

/-- State of the two decode goroutines together with the single shared
one-byte `buffer` and the sends performed so far. -/
structure RaceState where
  buffer : Nat
  errPath : PathState
  outPath : PathState
  trace : List ChanOp
deriving DecidableEq

/-- One step of one decode goroutine against the shared buffer.
`doRead`: `Read(buffer)` stores the next stream byte into the shared buffer
(or, at end of stream, sends the error event and finishes).  `doCheck`: the
goroutine consumes whatever the shared buffer now holds — sending the
accumulated line if it reads a newline, otherwise appending it to `line`.
The newline test and the append both consult the shared buffer in the
source; they are modelled as one atomic read of it, which only removes
interleavings. -/
def pathStep (isErr : Bool) (buffer : Nat) (p : PathState) :
    PathState × Nat × Option ChanOp :=
  if p.finished then (p, buffer, none)
  else
    match p.pc with
    | PathPC.doRead =>
      match p.stream with
      | [] => ({ p with finished := true }, buffer,
          some (ChanOp.send { Error := some GoErr.eof }))
      | b :: rest => ({ p with stream := rest, pc := PathPC.doCheck }, b, none)
    | PathPC.doCheck =>
      if buffer = 10 then
        ({ p with pc := PathPC.doRead, line := [] }, buffer,
          some (ChanOp.send { Line := p.line, IsError := isErr }))
      else ({ p with pc := PathPC.doRead, line := p.line ++ [buffer] }, buffer, none)

/-- One scheduler step: `true` steps the stderr goroutine, `false` the
stdout goroutine. -/
def raceStep (chooseErr : Bool) (m : RaceState) : RaceState :=
  if chooseErr then
    let r := pathStep true m.buffer m.errPath
    { m with errPath := r.1, buffer := r.2.1, trace := m.trace ++ r.2.2.toList }
  else
    let r := pathStep false m.buffer m.outPath
    { m with outPath := r.1, buffer := r.2.1, trace := m.trace ++ r.2.2.toList }

/-- Run a schedule of goroutine choices. -/
def raceRun (sched : List Bool) (m : RaceState) : RaceState :=
  sched.foldl (fun st c => raceStep c st) m

/-- Initial state of a session: both goroutines about to read, empty lines,
shared buffer zero-initialised. -/
def raceInit (se so : List Nat) : RaceState :=
  { buffer := 0
    errPath := { stream := se, pc := PathPC.doRead, line := [], finished := false }
    outPath := { stream := so, pc := PathPC.doRead, line := [], finished := false }
    trace := [] }

/-! ### Theorems -/

/-- C3 counterexample: `mergePerm` with the out-of-range component `8` does
not fail — it returns `855` with no error, because `ParseUint` accepts any
decimal digit string. -/
theorem C3_out_of_range_no_error : mergePerm 8 5 5 = some 855 := by decide

/-- C3 (amended): `mergePerm(7,5,5) = 755` and `mergePerm(6,0,0) = 600`, but
an out-of-range component such as `8` does not make `mergePerm` fail:
`mergePerm(8,5,5)` returns `855` with no error. -/
theorem C3_amended :
    mergePerm 7 5 5 = some 755 ∧ mergePerm 6 0 0 = some 600 ∧
      mergePerm 8 5 5 = some 855 ∧ mergePerm 8 5 5 ≠ none := by decide

/-- C10: for all single decimal digit components (0 through 9, including the
out-of-range digits 8 and 9), `mergePerm` returns no error and its result is
exactly `100*owner + 10*group + other`. -/
theorem C10_mergePerm_digits :
    ∀ a < 10, ∀ b < 10, ∀ c < 10, mergePerm a b c = some (100 * a + 10 * b + c) := by
  decide

/-- C10 witness: `mergePerm 8 9 9 = some 899`. -/
theorem C10_mergePerm_digits_witness : mergePerm 8 9 9 = some 899 :=
  C10_mergePerm_digits 8 (by decide) 9 (by decide) 9 (by decide)

/-- C7: `NewExecuter` is a pure total function of the kind and the host
platform; for `CLI_AUTO` it resolves to PowerShell when `GOOS = "windows"`
and to Bash otherwise, and on the same host it always yields the same
binding. -/
theorem C7_newExecuter_auto (goos other : String) :
    (goos = "windows" →
      NewExecuter CLI_AUTO goos = { cliExecuter := "powershell.exe", cliParams := "/c" }) ∧
    (goos ≠ "windows" →
      NewExecuter CLI_AUTO goos = { cliExecuter := "/bin/bash", cliParams := "-c" }) ∧
    (goos = other → NewExecuter CLI_AUTO goos = NewExecuter CLI_AUTO other) := by
  refine ⟨fun h => ?_, fun h => ?_, fun h => by rw [h]⟩
  · simp [NewExecuter, CLI_AUTO, CLI_POWERSHELL, CLI_CMD, CLI_BASH, h]
  · simp [NewExecuter, CLI_AUTO, CLI_POWERSHELL, CLI_CMD, CLI_BASH, h]

/-- C7 witness: the Auto binding on Windows and on Linux. -/
theorem C7_newExecuter_auto_witness :
    NewExecuter CLI_AUTO "windows" = { cliExecuter := "powershell.exe", cliParams := "/c" } ∧
    NewExecuter CLI_AUTO "linux" = { cliExecuter := "/bin/bash", cliParams := "-c" } :=
  ⟨(C7_newExecuter_auto "windows" "windows").1 rfl,
    (C7_newExecuter_auto "linux" "linux").2.1 (by decide)⟩

/-- Once the loop index has reached 3, `Mkdir`'s argument loop no longer
changes the array. -/
theorem mkdirLoop_of_ge_three (rest : List Nat) :
    ∀ i p, 3 ≤ i → mkdirLoop rest i p = p := by
  induction rest with
  | nil => intro i p _; rfl
  | cons v t ih =>
    intro i p hi
    have hnot : ¬ i < 3 := by omega
    simp [mkdirLoop, hnot]
    exact ih (i + 1) p (by omega)

/-- Closed form of `Mkdir`'s permission array: element `i` is the `i`-th
variadic argument when present, else the default. -/
theorem mkdirPermArr_eq (perm : List Nat) :
    mkdirPermArr perm = [perm.getD 0 7, perm.getD 1 5, perm.getD 2 5] := by
  match perm with
  | [] => rfl
  | [a] => rfl
  | [a, b] => rfl
  | a :: b :: c :: rest =>
    show mkdirLoop rest 3 _ = _
    rw [mkdirLoop_of_ge_three rest 3 _ (by omega)]
    rfl

/-- C9: `Mkdir` uses only the first three variadic permission arguments —
extras beyond the third are ignored — and missing arguments keep the
defaults `(7, 5, 5)`; the permission value handed to `os.Mkdir` depends only
on the first three arguments. -/
theorem C9_mkdir_first_three (perm : List Nat) (a b : Nat) :
    mkdirPermArr perm = mkdirPermArr (perm.take 3) ∧
    MkdirPermBits perm = MkdirPermBits (perm.take 3) ∧
    mkdirPermArr [] = [7, 5, 5] ∧
    mkdirPermArr [a] = [a, 5, 5] ∧
    mkdirPermArr [a, b] = [a, b, 5] := by
  have harr : mkdirPermArr perm = mkdirPermArr (perm.take 3) := by
    rw [mkdirPermArr_eq, mkdirPermArr_eq]
    match perm with
    | [] => rfl
    | [a] => rfl
    | [a, b] => rfl
    | a :: b :: c :: rest => rfl
  refine ⟨harr, by unfold MkdirPermBits; rw [harr], ?_, ?_, ?_⟩
  · rfl
  · rw [mkdirPermArr_eq]; rfl
  · rw [mkdirPermArr_eq]; rfl

/-- C4: when any launch step fails (`StdoutPipe`, `StderrPipe`, or `Start`),
`AsyncExecute` returns the error synchronously with no channel produced and
no decode goroutine started. -/
theorem C4_launch_failure_synchronous (env : LaunchEnv)
    (h : env.stdoutPipeResult ≠ none ∨ env.stderrPipeResult ≠ none ∨
      env.startResult ≠ none) :
    (AsyncExecuteLaunch env).returnedErr ≠ none ∧
    (AsyncExecuteLaunch env).channelCreated = false ∧
    (AsyncExecuteLaunch env).decodeGoroutines = 0 := by
  obtain ⟨so, se, st⟩ := env
  rcases so with _ | e₁ <;> rcases se with _ | e₂ <;> rcases st with _ | e₃ <;>
    simp_all [AsyncExecuteLaunch]

/-- C4 witness: a failing `cmd.Start()`. -/
theorem C4_launch_failure_synchronous_witness :
    (AsyncExecuteLaunch { startResult := some GoErr.startFailure }).returnedErr ≠ none ∧
    (AsyncExecuteLaunch { startResult := some GoErr.startFailure }).channelCreated = false ∧
    (AsyncExecuteLaunch { startResult := some GoErr.startFailure }).decodeGoroutines = 0 :=
  C4_launch_failure_synchronous { startResult := some GoErr.startFailure }
    (Or.inr (Or.inr (by decide)))

/-- A decode path's operations are the sends of the newline-terminated lines
still to come, followed by the single end-of-stream error send. -/
theorem decodeGo_eq (isErr : Bool) (s : List Nat) :
    ∀ acc, decodeGo isErr s acc =
      ((terminatedLinesGo s acc).map fun l =>
        ChanOp.send { Line := l, IsError := isErr }) ++
        [ChanOp.send { Error := some GoErr.eof }] := by
  induction s with
  | nil => intro acc; rfl
  | cons b rest ih =>
    intro acc
    by_cases hb : b = 10
    · simp [decodeGo, terminatedLinesGo, hb, ih]
    · simp [decodeGo, terminatedLinesGo, hb, ih]

/-- A stream with no newline byte contributes no terminated line. -/
theorem terminatedLinesGo_no_newline (p : List Nat) (hp : ∀ b ∈ p, b ≠ 10) :
    ∀ acc, terminatedLinesGo p acc = [] := by
  induction p with
  | nil => intro acc; rfl
  | cons b rest ih =>
    intro acc
    have hb : b ≠ 10 := hp b (by simp)
    simp [terminatedLinesGo, hb]
    exact ih (fun x hx => hp x (by simp [hx])) _

/-- Appending newline-free bytes to a stream does not change its
newline-terminated lines. -/
theorem terminatedLinesGo_append (s p : List Nat) (hp : ∀ b ∈ p, b ≠ 10) :
    ∀ acc, terminatedLinesGo (s ++ p) acc = terminatedLinesGo s acc := by
  induction s with
  | nil =>
    intro acc
    simpa [terminatedLinesGo] using terminatedLinesGo_no_newline p hp acc
  | cons b rest ih =>
    intro acc
    by_cases hb : b = 10 <;> simp [terminatedLinesGo, hb, ih]

/-- C6: a trailing partial line with no newline is dropped: the decode path
run on `s ++ p`, where `p` contains no newline byte, emits exactly one line
event per newline-terminated line of `s` followed by the single terminal
end-of-stream error event — identical to the events for `s` alone, so the
partial content of `p` appears in no event. -/
theorem C6_partial_line_dropped (isErr : Bool) (s p : List Nat)
    (hp : ∀ b ∈ p, b ≠ 10) :
    decodePath isErr (s ++ p) =
      ((terminatedLines s).map fun l =>
        ChanOp.send { Line := l, IsError := isErr }) ++
        [ChanOp.send { Error := some GoErr.eof }] ∧
    decodePath isErr (s ++ p) = decodePath isErr s := by
  constructor
  · rw [decodePath, decodeGo_eq, terminatedLines, terminatedLinesGo_append s p hp]
  · rw [decodePath, decodePath, decodeGo_eq, decodeGo_eq, terminatedLinesGo_append s p hp]

/-- C6 witness: the stream `"a\nbc"` (trailing partial line `"bc"`) produces
the same events as `"a\n"`: the line `"a"` and the end-of-stream error; the
bytes of `"bc"` are dropped. -/
theorem C6_partial_line_dropped_witness :
    decodePath true ([97, 10] ++ [98, 99]) =
      ((terminatedLines [97, 10]).map fun l =>
        ChanOp.send { Line := l, IsError := true }) ++
        [ChanOp.send { Error := some GoErr.eof }] ∧
    decodePath true ([97, 10] ++ [98, 99]) = decodePath true [97, 10] :=
  C6_partial_line_dropped true [97, 10] [98, 99] (by decide)

/-- A decode path performs no `close` operation. -/
theorem closeCount_decodeGo (isErr : Bool) (s : List Nat) :
    ∀ acc, closeCount (decodeGo isErr s acc) = 0 := by
  induction s with
  | nil => intro acc; rfl
  | cons b rest ih =>
    intro acc
    by_cases hb : b = 10 <;> simp [decodeGo, hb, closeCount, isClose, List.countP_cons] <;>
      simpa [closeCount] using ih _

/-- The cancel goroutine performs exactly one `close`. -/
theorem closeCount_cancelGoOps (ce : Option GoErr) : closeCount (cancelGoOps ce) = 1 := by
  cases ce <;> rfl

/-- The wait goroutine performs exactly one `close`. -/
theorem closeCount_waitGoOps (we : Option GoErr) : closeCount (waitGoOps we) = 1 := by
  cases we <;> rfl

/-- An interleaving has as many `close` operations as its two components
together. -/
theorem closeCount_merge {xs ys zs : List ChanOp} (h : Merge xs ys zs) :
    closeCount zs = closeCount xs + closeCount ys := by
  induction h with
  | nil => rfl
  | left _ ih => simp [closeCount, List.countP_cons] at ih ⊢; omega
  | right _ ih => simp [closeCount, List.countP_cons] at ih ⊢; omega

/-- Running any nonempty schedule against an already-closed channel panics. -/
theorem runOps_closed_ne_ok (s : List ChanOp) (hs : s ≠ []) :
    (runOps s true).2 ≠ RunOutcome.ok := by
  match s with
  | [] => exact absurd rfl hs
  | ChanOp.send m :: rest => simp [runOps]
  | ChanOp.close :: rest => simp [runOps]

/-- A schedule containing at least two `close` operations cannot run to
completion: the channel is closed twice (or a send lands after the close),
which panics. -/
theorem runOps_two_close (s : List ChanOp) (h : 2 ≤ closeCount s) :
    (runOps s false).2 ≠ RunOutcome.ok := by
  induction s with
  | nil => simp [closeCount] at h
  | cons op rest ih =>
    cases op with
    | send m =>
      have h2 : 2 ≤ closeCount rest := by
        simpa [closeCount, List.countP_cons, isClose] using h
      simpa [runOps] using ih h2
    | close =>
      have h1 : 1 ≤ closeCount rest := by
        simp [closeCount, List.countP_cons, isClose] at h ⊢
        exact h
      have hne : rest ≠ [] := by
        intro he; rw [he] at h1; simp [closeCount] at h1
      simpa [runOps] using runOps_closed_ne_ok rest hne

/-- C1 (refuted by the code): in every complete schedule of an
`AsyncExecute` session, the shared output channel is the target of exactly
two `close` operations — one from the cancel goroutine, one from the wait
goroutine — so no complete execution finishes without a runtime panic
(double close, or a send after the first close); the channel is never closed
exactly once with all producers accounted for. -/
theorem C1_double_close (se so : List Nat) (ce we : Option GoErr)
    (s : List ChanOp) (h : ValidSchedule se so ce we s) :
    closeCount s = 2 ∧ (runOps s false).2 ≠ RunOutcome.ok := by
  obtain ⟨d, h1, h2⟩ := h
  have hd : closeCount d = 0 := by
    have := closeCount_merge h1
    rw [this]
    simp [decodePath, closeCount_decodeGo]
  have hs : closeCount s = 2 := by
    have := closeCount_merge h2
    rw [this, closeCount_waitGoOps]
    have : closeCount (d ++ cancelGoOps ce) = 1 := by
      simp only [closeCount, List.countP_append] at *
      rw [hd]
      simpa [closeCount] using closeCount_cancelGoOps ce
    omega
  exact ⟨hs, runOps_two_close s (by omega)⟩

/-- Every list is an interleaving of itself with the empty list. -/
theorem merge_nil_right (xs : List ChanOp) : Merge xs [] xs := by
  induction xs with
  | nil => exact Merge.nil
  | cons x t ih => exact Merge.left ih

/-- Concatenation is one interleaving of two lists. -/
theorem merge_append (xs ys : List ChanOp) : Merge xs ys (xs ++ ys) := by
  induction xs with
  | nil =>
    induction ys with
    | nil => exact Merge.nil
    | cons y t ih => exact Merge.right ih
  | cons x t ih => exact Merge.left ih

/-- C1 witness: the session with both streams empty and `Cancel` and `Wait`
succeeding, scheduled decode-sends first, then both closes. -/
theorem C1_double_close_witness :
    closeCount cOneSched = 2 ∧ (runOps cOneSched false).2 ≠ RunOutcome.ok := by
  refine C1_double_close [] [] none none cOneSched ⟨[eofSend, eofSend], ?_, ?_⟩
  · exact Merge.left (Merge.right Merge.nil)
  · exact Merge.left (Merge.left (Merge.left (Merge.right Merge.nil)))

/-- C2 (refuted by the code): the close is not confined to a single
coordinator — both the cancel goroutine and the wait goroutine close the
channel — and there is a valid schedule (the wait goroutine's close firing
before the decoders' sends) in which a send occurs after the channel is
closed, panicking the program. -/
theorem C2_producers_close_and_send_after_close :
    ChanOp.close ∈ cancelGoOps none ∧ ChanOp.close ∈ waitGoOps none ∧
    ValidSchedule [] [10] none none cTwoSched ∧
    (runOps cTwoSched false).2 = RunOutcome.panicSendOnClosed := by
  refine ⟨by decide, by decide, ⟨cTwoDecodes, ?_, ?_⟩, by decide⟩
  · exact merge_append (decodePath true []) (decodePath false [10])
  · exact Merge.right (merge_nil_right (cTwoDecodes ++ cancelGoOps none))

/-- C5 (refuted by the code): on a command printing one stdout line
(`"hi\n"`, no stderr output), there is a valid schedule — the wait goroutine
closing as soon as `cmd.Wait` returns, before the stdout decoder delivers —
in which the delivered trace contains zero stdout line events instead of the
one the decode path would produce, so the stream does not contain the N
expected line events before the channel closes. -/
theorem C5_line_lost_before_close :
    ValidSchedule [] [104, 105, 10] none none cFiveSched ∧
    stdoutLineCount (runOps cFiveSched false).1 = 0 ∧
    stdoutLineCount (decodePath false [104, 105, 10]) = 1 ∧
    (terminatedLines [104, 105, 10]).length = 1 := by
  refine ⟨⟨cFiveDecodes, ?_, ?_⟩, by decide, by decide, by decide⟩
  · exact merge_append (decodePath true []) (decodePath false [104, 105, 10])
  · exact Merge.right (merge_nil_right (cFiveDecodes ++ cancelGoOps none))

/-- C8 (refuted by the code): the single shared one-byte read buffer is
mutable state shared by the two decode paths.  With stderr stream `"a\n"`
and stdout stream `"b\n"`, the schedule stderr-read, stdout-read,
stderr-check, stderr-read, stderr-check makes the stdout goroutine's read
overwrite the shared buffer between the stderr goroutine's read and its use
of the byte: the stderr path emits the line `[98]` (`"b"`), a stdout byte,
although its own stream's terminated line is `[97]` (`"a"`) — impossible if
each path had its own buffer, as the sequential per-path semantics shows. -/
theorem C8_shared_buffer_race :
    (raceRun [true, false, true, true, true] (raceInit [97, 10] [98, 10])).trace =
      [ChanOp.send { Line := [98], IsError := true }] ∧
    terminatedLines [97, 10] = [[97]] ∧
    decodePath true [97, 10] =
      [ChanOp.send { Line := [97], IsError := true },
        ChanOp.send { Error := some GoErr.eof }] ∧
    ([98] : List Nat) ≠ [97] := by decide

end Cmdutils
